import Mathlib

/-!
Verification of the football_simulator repository: a shallow embedding of
the standings aggregator and season-progression logic of
src/database/db_manager.py and src/streamlit_app.py, and of the match
simulator of src/simulation/match_sim.py, together with proofs settling
the specification claims about them.

Modelling conventions:
* SQLite rows become Lean structures; SQL UPDATE over a table becomes a
  map over a list of rows.  An UPDATE statement evaluates every SET
  right-hand side against the pre-update values of the row, and the
  embedding reproduces that faithfully.
* Machine integers are Nat/Int (goal counts and table counters are
  non-negative, goal difference may be negative).
* Randomness is passed explicitly: each random draw of the Python code
  becomes a field of a draws structure.  Real-valued quantities that only
  parameterise the distribution of a draw (expected goals, Bernoulli
  success probabilities) are absorbed into the abstract draw itself.
-/

/-- One row of the `league_table` SQLite table (db_manager.py, lines 63-77). -/
structure LeagueRow where
  team_name : String
  played : Nat
  won : Nat
  drawn : Nat
  lost : Nat
  goals_for : Nat
  goals_against : Nat
  goal_difference : Int
  points : Nat
  form : String
deriving DecidableEq, Repr

/-- One row of the `fixtures` SQLite table (db_manager.py, lines 46-60).
Goal columns are nullable (`Option`), NULL until the fixture is played. -/
structure Fixture where
  id : Nat
  gameweek : Nat
  home_team : String
  away_team : String
  home_goals : Option Nat
  away_goals : Option Nat
  is_played : Bool
deriving DecidableEq, Repr

/-- The singleton `game_state` row (db_manager.py, lines 80-87). -/
structure GameState where
  current_gameweek : Nat
  season_year : String
  user_team : String
deriving DecidableEq, Repr

/-- The reset performed at the start of `update_league_table`
(db_manager.py, lines 218-219): every statistics column is zeroed and
`form` is cleared; the team name is kept. -/
def resetRow (r : LeagueRow) : LeagueRow :=
  { r with played := 0, won := 0, drawn := 0, lost := 0, goals_for := 0,
           goals_against := 0, goal_difference := 0, points := 0, form := "" }

/-- The win/draw/loss classification of `_update_team_stats`
(db_manager.py, lines 239-244), returning (won, drawn, lost, points)
increments from the perspective of a side scoring `goals_for` and
conceding `goals_against`. -/
def matchOutcome (goals_for goals_against : Nat) : Nat × Nat × Nat × Nat :=
  if goals_for > goals_against then (1, 0, 0, 3)
  else if goals_for = goals_against then (0, 1, 0, 1)
  else (0, 0, 1, 0)

/-- The SET clause of the UPDATE in `_update_team_stats` (db_manager.py,
lines 246-257), applied to the single matching row.  SQL evaluates every
right-hand side against the pre-update row, so
`goal_difference = goals_for - goals_against` uses the row's OLD
`goals_for`/`goals_against`, not the freshly incremented ones. -/
def applyResult (r : LeagueRow) (goals_for goals_against : Nat) : LeagueRow :=
  { r with played := r.played + 1,
           won := r.won + (matchOutcome goals_for goals_against).1,
           drawn := r.drawn + (matchOutcome goals_for goals_against).2.1,
           lost := r.lost + (matchOutcome goals_for goals_against).2.2.1,
           goals_for := r.goals_for + goals_for,
           goals_against := r.goals_against + goals_against,
           goal_difference := (r.goals_for : Int) - (r.goals_against : Int),
           points := r.points + (matchOutcome goals_for goals_against).2.2.2 }

/-- `DatabaseManager._update_team_stats` (db_manager.py, lines 236-257):
a single SQL UPDATE on the row whose `team_name` matches (`league_table`
has `team_name` as primary key, so at most one row matches).  The
`is_home` parameter is accepted and ignored, as in the source. -/
def updateTeamStats (table : List LeagueRow) (team : String)
    (goals_for goals_against : Nat) (is_home : Bool) : List LeagueRow :=
  table.map fun r =>
    if r.team_name = team then applyResult r goals_for goals_against else r

/-- The result of one played fixture as selected by `update_league_table`
(db_manager.py, lines 222-226): `SELECT home_team, away_team, home_goals,
away_goals FROM fixtures WHERE is_played = TRUE`. -/
structure PlayedResult where
  home_team : String
  away_team : String
  home_goals : Nat
  away_goals : Nat
deriving DecidableEq, Repr

/-- The rows returned by the played-fixtures SELECT.  A played fixture
always carries both goal counts (data-model invariant); a malformed row
with NULL goals would make the Python comparison raise and is skipped
here. -/
def playedResults (fixtures : List Fixture) : List PlayedResult :=
  fixtures.filterMap fun f =>
    if f.is_played then
      match f.home_goals, f.away_goals with
      | some hg, some ag => some ⟨f.home_team, f.away_team, hg, ag⟩
      | _, _ => none
    else none

/-- One iteration of the fixture loop of `update_league_table`
(db_manager.py, lines 228-232): fold the home side first, then the away
side with the goal counts swapped. -/
def foldFixture (table : List LeagueRow) (r : PlayedResult) : List LeagueRow :=
  updateTeamStats (updateTeamStats table r.home_team r.home_goals r.away_goals true)
    r.away_team r.away_goals r.home_goals false

/-- `DatabaseManager.update_league_table` (db_manager.py, lines 212-234):
reset every row, then fold every played fixture into the table. -/
def update_league_table (table : List LeagueRow) (fixtures : List Fixture) :
    List LeagueRow :=
  (playedResults fixtures).foldl foldFixture (table.map resetRow)

/-- `DatabaseManager.update_fixture_result` (db_manager.py, lines 173-182):
an unconditional SQL UPDATE on the row whose `id` matches, setting both
goal columns and the played flag.  The function has no error channel in
the source: a missing id matches no row and the statement succeeds
silently, so the embedding always returns `Except.ok`. -/
def update_fixture_result (fixtures : List Fixture) (fixture_id : Nat)
    (home_goals away_goals : Nat) : Except String (List Fixture) :=
  Except.ok <| fixtures.map fun f =>
    if f.id = fixture_id then
      { f with home_goals := some home_goals, away_goals := some away_goals,
               is_played := true }
    else f

/-- `DatabaseManager.advance_gameweek` (db_manager.py, lines 259-268):
an unconditional increment of `current_gameweek`.  It consults no
fixtures, performs no guard and no standings recompute, and cannot
fail. -/
def advance_gameweek (s : GameState) : GameState :=
  { s with current_gameweek := s.current_gameweek + 1 }

/-- `DatabaseManager.get_gameweek_fixtures` restricted to the fields the
advance flow consults (db_manager.py, lines 149-171): the fixtures of one
gameweek. -/
def get_gameweek_fixtures (fixtures : List Fixture) (gw : Nat) : List Fixture :=
  fixtures.filter fun f => f.gameweek = gw

/-- The unplayed fixtures of a gameweek, as counted by the
`remaining = len([f for f in fixtures if not f['is_played']])` line of
`show_fixtures_page` (streamlit_app.py, line 253). -/
def unplayedFixtures (fixtures : List Fixture) (gw : Nat) : List Fixture :=
  (get_gameweek_fixtures fixtures gw).filter fun f => !f.is_played

/-- The advance-gameweek section of `show_fixtures_page`
(streamlit_app.py, lines 232-254), for the current gameweek: when every
fixture of the current gameweek is played (`all_played`, line 237), the
advance action calls `advance_gameweek` and then `update_league_table`;
otherwise no advance happens and an info message reporting the number of
remaining matches is shown.  Returns (game state, league table, message
with remaining count). -/
def show_fixtures_advance (s : GameState) (fixtures : List Fixture)
    (table : List LeagueRow) : GameState × List LeagueRow × Option Nat :=
  if (get_gameweek_fixtures fixtures s.current_gameweek).all (fun f => f.is_played) then
    (advance_gameweek s, update_league_table table fixtures, none)
  else
    (s, table, some (unplayedFixtures fixtures s.current_gameweek).length)

/-!
## Match simulator (src/simulation/match_sim.py)
-/

/-- The team-statistics dictionary consumed by the simulator
(`get_team_stats` of db_manager.py, lines 270-291, plus the form field
read by `simulate_with_stats`).  Python dict keys may be absent, hence
`Option`; `Stats.get` mirrors `dict.get(key, default)`. -/
structure Stats where
  attack_rating : Option Int := none
  defense_rating : Option Int := none
  overall_rating : Option Int := none
  recent_form : Option Int := none
  goals_scored : Option Int := none
  goals_conceded : Option Int := none
  games_played : Option Int := none
deriving DecidableEq, Repr

/-- `self.home_advantage = 5` (match_sim.py, line 9). -/
def home_advantage : Int := 5

/-- `self.randomness_factor = 15` (match_sim.py, line 10): the half-width
of the uniform noise window of `simulate_basic`. -/
def randomness_factor : Int := 15

/-- `self.max_goals = 7` (match_sim.py, line 11). -/
def max_goals : Nat := 7

/-- Random draws consumed by `simulate_basic`: the two
`random.randint(-15, 15)` noise draws and the index of the
`random.choice` pick from the bucket's scoreline list. -/
structure BasicDraws where
  homeNoise : Int
  awayNoise : Int
  choiceIdx : Nat
deriving DecidableEq, Repr

/-- Random draws consumed by `simulate_rating_based`: the outcomes of the
10 Bernoulli chances per side (lines 56-60).  The real-valued goal
potentials (lines 44-49) only set each chance's success probability and
are absorbed into these abstract Boolean draws. -/
structure RatingDraws where
  homeTrials : Fin 10 → Bool
  awayTrials : Fin 10 → Bool

/-- Random draws consumed by `simulate_with_stats`: the
`random.randint(2, 5)` fatigue draw (used only when gameweek > 30), the
`random.randint(-8, 8)` motivation draw, and the two
`int(np.random.normal(expected, 0.9))` samples already truncated to
integers; the expected-goal means only parameterise the distribution and
are absorbed into the draws. -/
structure StatsDraws where
  fatigue : Int
  motivation : Int
  homeNormal : Int
  awayNormal : Int
deriving DecidableEq, Repr

/-- Random draws consumed by `simulate_realistic_stats`: the two
`np.random.poisson(expected)` samples, which are non-negative integers;
the venue rates and form multipliers (lines 113-130) only set the Poisson
means and are absorbed into the draws. -/
structure RealisticDraws where
  homePoisson : Nat
  awayPoisson : Nat
deriving DecidableEq, Repr

/-- All draws a `simulate_match` call may consume, one substructure per
fidelity level. -/
structure MatchDraws where
  basic : BasicDraws
  rating : RatingDraws
  stats : StatsDraws
  realistic : RealisticDraws

/-- The six strength-difference buckets of `simulate_basic`
(match_sim.py, lines 26-35), each mapped to its curated scoreline list. -/
def bucketChoices (strength_diff : Int) : List (Nat × Nat) :=
  if strength_diff > 20 then [(3, 0), (2, 0), (3, 1), (4, 1), (2, 1)]
  else if strength_diff > 10 then [(2, 1), (1, 0), (3, 2), (2, 0)]
  else if strength_diff < -20 then [(0, 3), (0, 2), (1, 3), (1, 4), (1, 2)]
  else if strength_diff < -10 then [(1, 2), (0, 1), (2, 3), (0, 2)]
  else [(1, 1), (0, 0), (2, 2), (1, 0), (0, 1), (2, 1), (1, 2)]

/-- `random.choice(l)` modelled by an abstract index draw reduced modulo
the (always positive) list length. -/
def choiceFrom (l : List (Nat × Nat)) (i : Nat) : Nat × Nat :=
  l.getD (i % l.length) (0, 0)

/-- `MatchSimulator.simulate_basic` (match_sim.py, lines 13-35). -/
def simulate_basic (home_rating away_rating : Int) (d : BasicDraws) : Nat × Nat :=
  let home_strength := home_rating + home_advantage + d.homeNoise
  let away_strength := away_rating + d.awayNoise
  let strength_diff := home_strength - away_strength
  choiceFrom (bucketChoices strength_diff) d.choiceIdx

/-- `MatchSimulator.simulate_rating_based` (match_sim.py, lines 37-62).
Each of the 10 chances per side succeeds with probability equal to that
side's perturbed goal potential; the attack/defense inputs shape only
those probabilities, so goals are the success counts of the abstract
trial draws, clamped by `min` to `max_goals` as in line 62. -/
def simulate_rating_based (home_attack home_defense away_attack away_defense : Int)
    (d : RatingDraws) : Nat × Nat :=
  let home_goals := (List.ofFn d.homeTrials).count true
  let away_goals := (List.ofFn d.awayTrials).count true
  (min home_goals max_goals, min away_goals max_goals)

/-- The motivation perturbation of `simulate_with_stats` (match_sim.py,
lines 89-92): `home_strength += motivation; away_strength -= motivation // 2`,
where `//` is Python floor division (`Int.fdiv`). -/
def motivationStep (home_strength away_strength motivation : Int) : Int × Int :=
  (home_strength + motivation, away_strength - Int.fdiv motivation 2)

/-- `MatchSimulator.simulate_with_stats` (match_sim.py, lines 64-106).
Strength accumulation (lines 71-92) is exact integer arithmetic; the
strength difference then sets the means of the two normal samples
(lines 94-104), which are absorbed into the truncated-integer draws.
`max(0, int(sample))` followed by `min(., max_goals)` is the clamp of
lines 103-106. -/
def simulate_with_stats (home_team_stats away_team_stats : Stats)
    (gameweek : Nat) (d : StatsDraws) : Nat × Nat :=
  let home_strength := home_team_stats.overall_rating.getD 50 + home_advantage
  let away_strength := away_team_stats.overall_rating.getD 50
  let home_form := home_team_stats.recent_form.getD 0
  let away_form := away_team_stats.recent_form.getD 0
  let home_strength := home_strength + home_form * 2
  let away_strength := away_strength + away_form * 2
  let (home_strength, away_strength) :=
    if gameweek > 30 then (home_strength - d.fatigue, away_strength - d.fatigue)
    else (home_strength, away_strength)
  let (home_strength, away_strength) :=
    motivationStep home_strength away_strength d.motivation
  let _strength_diff := home_strength - away_strength
  let home_goals := min (max 0 d.homeNormal).toNat max_goals
  let away_goals := min (max 0 d.awayNormal).toNat max_goals
  (home_goals, away_goals)

/-- `MatchSimulator.simulate_realistic_stats` (match_sim.py, lines
108-136).  The Poisson samples are non-negative integers, so
`max(0, int(sample))` is the identity and only the `min` clamp of line
136 remains. -/
def simulate_realistic_stats (home_stats away_stats : Stats)
    (d : RealisticDraws) : Nat × Nat :=
  (min d.homePoisson max_goals, min d.awayPoisson max_goals)

/-- The outcome derivation of `simulate_match` (match_sim.py, lines
187-193), applied to the final goal counts after level dispatch. -/
def resultFromGoals (home_goals away_goals : Nat) : String :=
  if home_goals > away_goals then "H"
  else if away_goals > home_goals then "A"
  else "D"

/-- The dictionary returned by `simulate_match` (match_sim.py, lines
195-203). -/
structure MatchResult where
  home_team : String
  away_team : String
  home_goals : Nat
  away_goals : Nat
  result : String
  scoreline : String
  simulation_level : String
deriving DecidableEq, Repr

/-- The level dispatch of `simulate_match` (match_sim.py, lines 156-185):
selection by level name, with fallback to the basic level for an
unrecognised name. -/
def simulate_goals (home_stats away_stats : Stats) (simulation_level : String)
    (gameweek : Nat) (d : MatchDraws) : Nat × Nat :=
  if simulation_level = "basic" then
    simulate_basic (home_stats.overall_rating.getD 50)
      (away_stats.overall_rating.getD 50) d.basic
  else if simulation_level = "rating" then
    simulate_rating_based (home_stats.attack_rating.getD 50)
      (home_stats.defense_rating.getD 50) (away_stats.attack_rating.getD 50)
      (away_stats.defense_rating.getD 50) d.rating
  else if simulation_level = "stats" then
    simulate_with_stats home_stats away_stats gameweek d.stats
  else if simulation_level = "realistic" then
    simulate_realistic_stats home_stats away_stats d.realistic
  else
    simulate_basic (home_stats.overall_rating.getD 50)
      (away_stats.overall_rating.getD 50) d.basic

/-- `MatchSimulator.simulate_match` (match_sim.py, lines 138-203): level
dispatch, then the outcome derivation and result dictionary. -/
def simulate_match (home_team away_team : String)
    (home_stats away_stats : Stats) (simulation_level : String)
    (gameweek : Nat) (d : MatchDraws) : MatchResult :=
  let goals := simulate_goals home_stats away_stats simulation_level gameweek d
  let home_goals := goals.1
  let away_goals := goals.2
  { home_team := home_team,
    away_team := away_team,
    home_goals := home_goals,
    away_goals := away_goals,
    result := resultFromGoals home_goals away_goals,
    scoreline := toString home_goals ++ "-" ++ toString away_goals,
    simulation_level := simulation_level }

/-- The win/draw/loss probability triple returned by
`get_result_probability`.  The Python float literals are exact decimal
fractions and are modelled as the corresponding rationals. -/
structure ResultProbability where
  home_win : ℚ
  draw : ℚ
  away_win : ℚ
deriving DecidableEq, Repr

/-- The rating-difference bucketing of `get_result_probability`
(match_sim.py, lines 216-227): six ranges, each mapped to a fixed
probability triple. -/
def probabilityBuckets (rating_diff : Int) : ResultProbability :=
  if rating_diff > 20 then ⟨0.70, 0.20, 0.10⟩
  else if rating_diff > 10 then ⟨0.55, 0.25, 0.20⟩
  else if rating_diff > 0 then ⟨0.45, 0.30, 0.25⟩
  else if rating_diff > -10 then ⟨0.35, 0.30, 0.35⟩
  else if rating_diff > -20 then ⟨0.25, 0.25, 0.50⟩
  else ⟨0.15, 0.20, 0.65⟩

/-- `MatchSimulator.get_result_probability` (match_sim.py, lines
205-227): a pure function of the two overall ratings (default 50) plus
home advantage, bucketed into six rating-difference ranges. -/
def get_result_probability (home_stats away_stats : Stats) : ResultProbability :=
  let home_rating := home_stats.overall_rating.getD 50 + home_advantage
  let away_rating := away_stats.overall_rating.getD 50
  let rating_diff := home_rating - away_rating
  probabilityBuckets rating_diff

/-!
## Derived quantities and invariants about the league table
-/

/-- Total points across all rows of a league table. -/
def sumPoints (t : List LeagueRow) : Nat := (t.map fun r => r.points).sum

/-- Total goals scored across all rows of a league table. -/
def sumGoalsFor (t : List LeagueRow) : Nat := (t.map fun r => r.goals_for).sum

/-- Total goals conceded across all rows of a league table. -/
def sumGoalsAgainst (t : List LeagueRow) : Nat := (t.map fun r => r.goals_against).sum

/-- The per-row bookkeeping invariant: games played split into results,
and points follow the 3/1/0 rule. -/
def rowInvariant (r : LeagueRow) : Prop :=
  r.played = r.won + r.drawn + r.lost ∧ r.points = 3 * r.won + r.drawn

/-!
## Concrete test states
-/

/-- A fresh league-table row as created by `add_team`. -/
def blankRow (name : String) : LeagueRow := ⟨name, 0, 0, 0, 0, 0, 0, 0, 0, ""⟩

/-- The initial game state: gameweek 1, defaults from the schema. -/
def stateC1 : GameState := ⟨1, "2024-25", "Sheffield United"⟩

def tableC1 : List LeagueRow := [blankRow "Arsenal", blankRow "Chelsea"]

/-- One gameweek-1 fixture, not yet played. -/
def fixturesC1 : List Fixture := [⟨1, 1, "Arsenal", "Chelsea", none, none, false⟩]

/-- The same fixture with a recorded result. -/
def fixturesC1done : List Fixture := [⟨1, 1, "Arsenal", "Chelsea", some 2, some 1, true⟩]

def tableC2 : List LeagueRow := [blankRow "Arsenal", blankRow "Chelsea"]

/-- A single played fixture: Arsenal 2-0 Chelsea. -/
def fixturesC2 : List Fixture := [⟨1, 1, "Arsenal", "Chelsea", some 2, some 0, true⟩]

def tableC6 : List LeagueRow := [blankRow "Arsenal", blankRow "Chelsea"]

/-- One decisive played match, one drawn played match, one unplayed. -/
def fixturesC6 : List Fixture :=
  [⟨1, 1, "Arsenal", "Chelsea", some 2, some 1, true⟩,
   ⟨2, 2, "Chelsea", "Arsenal", some 0, some 0, true⟩,
   ⟨3, 3, "Arsenal", "Chelsea", none, none, false⟩]

/-- A store whose only fixture has id 1 (no fixture with id 5). -/
def fixturesC7 : List Fixture := [⟨1, 1, "Arsenal", "Chelsea", none, none, false⟩]

/-- A two-fixture store with ids 1 and 2 (no fixture with id 99). -/
def fixturesC7b : List Fixture :=
  [⟨1, 1, "Arsenal", "Chelsea", none, none, false⟩,
   ⟨2, 1, "Fulham", "Everton", some 1, some 1, true⟩]

def tableC9 : List LeagueRow := [blankRow "Arsenal", blankRow "Chelsea"]

def fixturesC9 : List Fixture := [⟨1, 1, "Arsenal", "Chelsea", some 2, some 0, true⟩]

/-!
## Helper lemmas
-/

theorem resultFromGoals_spec (h a : Nat) :
    (resultFromGoals h a = "H" ↔ h > a) ∧ (resultFromGoals h a = "A" ↔ a > h) ∧
    (resultFromGoals h a = "D" ↔ ¬ h > a ∧ ¬ a > h) := by
  unfold resultFromGoals
  split_ifs with h1 h2 <;> refine ⟨?_, ?_, ?_⟩ <;> simp_all <;> omega

/-- Any pick from a list of scorelines bounded by 7 is bounded by 7. -/
theorem getD_pair_le (l : List (Nat × Nat)) (n : Nat) (dflt : Nat × Nat)
    (hl : ∀ p ∈ l, p.1 ≤ 7 ∧ p.2 ≤ 7) (hd : dflt.1 ≤ 7 ∧ dflt.2 ≤ 7) :
    (l.getD n dflt).1 ≤ 7 ∧ (l.getD n dflt).2 ≤ 7 := by
  rw [List.getD_eq_getElem?_getD]
  cases h : l[n]? with
  | none => simpa using hd
  | some p => simpa using hl p (List.getElem?_mem h)

/-- Every curated scoreline of every strength-difference bucket is at
most 4-4, hence within the 7-goal cap. -/
theorem bucketChoices_le (strength_diff : Int) :
    ∀ p ∈ bucketChoices strength_diff, p.1 ≤ 7 ∧ p.2 ≤ 7 := by
  unfold bucketChoices
  split_ifs <;> decide

theorem choiceFrom_le (l : List (Nat × Nat)) (i : Nat)
    (hl : ∀ p ∈ l, p.1 ≤ 7 ∧ p.2 ≤ 7) :
    (choiceFrom l i).1 ≤ 7 ∧ (choiceFrom l i).2 ≤ 7 :=
  getD_pair_le l _ _ hl (by decide)

theorem simulate_basic_le (home_rating away_rating : Int) (d : BasicDraws) :
    (simulate_basic home_rating away_rating d).1 ≤ 7 ∧
    (simulate_basic home_rating away_rating d).2 ≤ 7 :=
  choiceFrom_le _ _ (bucketChoices_le _)

theorem simulate_goals_le (home_stats away_stats : Stats)
    (simulation_level : String) (gameweek : Nat) (d : MatchDraws) :
    (simulate_goals home_stats away_stats simulation_level gameweek d).1 ≤ 7 ∧
    (simulate_goals home_stats away_stats simulation_level gameweek d).2 ≤ 7 := by
  unfold simulate_goals
  split_ifs
  · exact simulate_basic_le _ _ _
  · exact ⟨Nat.min_le_right _ _, Nat.min_le_right _ _⟩
  · exact ⟨Nat.min_le_right _ _, Nat.min_le_right _ _⟩
  · exact ⟨Nat.min_le_right _ _, Nat.min_le_right _ _⟩
  · exact simulate_basic_le _ _ _

/-!
## Aggregator lemmas
-/

theorem matchOutcome_points_sum (hg ag : Nat) :
    (matchOutcome hg ag).2.2.2 + (matchOutcome ag hg).2.2.2
      = if hg = ag then 2 else 3 := by
  unfold matchOutcome
  rcases Nat.lt_trichotomy hg ag with h | h | h
  · rw [if_neg (by omega), if_neg (by omega), if_pos (by omega), if_neg (by omega)]; rfl
  · rw [if_neg (by omega), if_pos h, if_neg (by omega), if_pos h.symm, if_pos h]; rfl
  · rw [if_pos h, if_neg (by omega), if_neg (by omega), if_neg (by omega)]; rfl

/-- If no row of the table is named `team`, the UPDATE touches nothing. -/
theorem map_ite_id (team : String) (upd : LeagueRow → LeagueRow) :
    ∀ t : List LeagueRow, (∀ x ∈ t, x.team_name ≠ team) →
      (t.map fun r => if r.team_name = team then upd r else r) = t := by
  intro t
  induction t with
  | nil => intro _; rfl
  | cons r t ih =>
    intro h
    rw [List.map_cons, if_neg (h r (List.mem_cons_self r t)),
      ih fun x hx => h x (List.mem_cons_of_mem r hx)]

/-- Updating the unique row named `team` shifts any additive row
aggregate by the row increment. -/
theorem sum_map_update (g : LeagueRow → Nat) (upd : LeagueRow → LeagueRow)
    (c : Nat) (hupd : ∀ r, g (upd r) = g r + c) (team : String) :
    ∀ t : List LeagueRow, (t.map fun r => r.team_name).Nodup →
      team ∈ t.map (fun r => r.team_name) →
      ((t.map fun r => if r.team_name = team then upd r else r).map g).sum
        = (t.map g).sum + c := by
  intro t
  induction t with
  | nil =>
    intro _ hmem
    simp at hmem
  | cons r t ih =>
    intro hnd hmem
    rw [List.map_cons, List.nodup_cons] at hnd
    rw [List.map_cons, List.mem_cons] at hmem
    by_cases hr : r.team_name = team
    · have hnone : ∀ x ∈ t, x.team_name ≠ team := by
        intro x hx hxteam
        apply hnd.1
        rw [hr, ← hxteam]
        exact List.mem_map_of_mem _ hx
      rw [List.map_cons, if_pos hr, map_ite_id team upd t hnone, List.map_cons,
        List.sum_cons, List.map_cons, List.sum_cons, hupd r]
      omega
    · have hmem' : team ∈ t.map fun x => x.team_name := by
        rcases hmem with h | h
        · exact absurd h.symm hr
        · exact h
      rw [List.map_cons, if_neg hr, List.map_cons, List.sum_cons, List.map_cons,
        List.sum_cons, ih hnd.2 hmem']
      omega

/-- `_update_team_stats` keeps every row name. -/
theorem updateTeamStats_names (team : String) (gf ga : Nat) (b : Bool) :
    ∀ t : List LeagueRow,
      (updateTeamStats t team gf ga b).map (fun r => r.team_name)
        = t.map fun r => r.team_name := by
  intro t
  induction t with
  | nil => rfl
  | cons r t ih =>
    simp only [updateTeamStats, List.map_cons] at ih ⊢
    rw [ih]
    congr 1
    by_cases hr : r.team_name = team
    · rw [if_pos hr]
      rfl
    · rw [if_neg hr]

theorem updateTeamStats_sumPoints (t : List LeagueRow) (team : String)
    (gf ga : Nat) (b : Bool) (hnd : (t.map fun r => r.team_name).Nodup)
    (hmem : team ∈ t.map fun r => r.team_name) :
    sumPoints (updateTeamStats t team gf ga b)
      = sumPoints t + (matchOutcome gf ga).2.2.2 :=
  sum_map_update _ _ _ (fun _ => rfl) team t hnd hmem

theorem updateTeamStats_sumGoalsFor (t : List LeagueRow) (team : String)
    (gf ga : Nat) (b : Bool) (hnd : (t.map fun r => r.team_name).Nodup)
    (hmem : team ∈ t.map fun r => r.team_name) :
    sumGoalsFor (updateTeamStats t team gf ga b) = sumGoalsFor t + gf :=
  sum_map_update _ _ _ (fun _ => rfl) team t hnd hmem

theorem updateTeamStats_sumGoalsAgainst (t : List LeagueRow) (team : String)
    (gf ga : Nat) (b : Bool) (hnd : (t.map fun r => r.team_name).Nodup)
    (hmem : team ∈ t.map fun r => r.team_name) :
    sumGoalsAgainst (updateTeamStats t team gf ga b) = sumGoalsAgainst t + ga :=
  sum_map_update _ _ _ (fun _ => rfl) team t hnd hmem

theorem foldFixture_names (t : List LeagueRow) (p : PlayedResult) :
    (foldFixture t p).map (fun r => r.team_name) = t.map fun r => r.team_name := by
  unfold foldFixture
  rw [updateTeamStats_names, updateTeamStats_names]

theorem foldFixture_sums (t : List LeagueRow) (p : PlayedResult)
    (hnd : (t.map fun r => r.team_name).Nodup)
    (hh : p.home_team ∈ t.map fun r => r.team_name)
    (ha : p.away_team ∈ t.map fun r => r.team_name) :
    sumPoints (foldFixture t p)
      = sumPoints t + (if p.home_goals = p.away_goals then 2 else 3) ∧
    sumGoalsFor (foldFixture t p) = sumGoalsFor t + (p.home_goals + p.away_goals) ∧
    sumGoalsAgainst (foldFixture t p)
      = sumGoalsAgainst t + (p.home_goals + p.away_goals) := by
  have hnd1 : ((updateTeamStats t p.home_team p.home_goals p.away_goals true).map
      fun r => r.team_name).Nodup := by
    rw [updateTeamStats_names]
    exact hnd
  have ha1 : p.away_team ∈ (updateTeamStats t p.home_team p.home_goals
      p.away_goals true).map fun r => r.team_name := by
    rw [updateTeamStats_names]
    exact ha
  unfold foldFixture
  refine ⟨?_, ?_, ?_⟩
  · rw [updateTeamStats_sumPoints _ _ _ _ _ hnd1 ha1,
      updateTeamStats_sumPoints _ _ _ _ _ hnd hh]
    have hsum := matchOutcome_points_sum p.home_goals p.away_goals
    by_cases heq : p.home_goals = p.away_goals <;> simp [heq] at hsum ⊢ <;> omega
  · rw [updateTeamStats_sumGoalsFor _ _ _ _ _ hnd1 ha1,
      updateTeamStats_sumGoalsFor _ _ _ _ _ hnd hh]
    omega
  · rw [updateTeamStats_sumGoalsAgainst _ _ _ _ _ hnd1 ha1,
      updateTeamStats_sumGoalsAgainst _ _ _ _ _ hnd hh]
    omega

theorem foldl_foldFixture_sums :
    ∀ (rs : List PlayedResult) (t : List LeagueRow),
      (t.map fun r => r.team_name).Nodup →
      (∀ p ∈ rs, p.home_team ∈ t.map (fun r => r.team_name) ∧
        p.away_team ∈ t.map fun r => r.team_name) →
      sumPoints (rs.foldl foldFixture t)
        = sumPoints t + 3 * (rs.countP fun p => !(p.home_goals == p.away_goals))
          + 2 * (rs.countP fun p => p.home_goals == p.away_goals) ∧
      sumGoalsFor (rs.foldl foldFixture t)
        = sumGoalsFor t + (rs.map fun p => p.home_goals + p.away_goals).sum ∧
      sumGoalsAgainst (rs.foldl foldFixture t)
        = sumGoalsAgainst t + (rs.map fun p => p.home_goals + p.away_goals).sum := by
  intro rs
  induction rs with
  | nil =>
    intro t _ _
    simp
  | cons p rs ih =>
    intro t hnd hmem
    have hp := hmem p (List.mem_cons_self _ _)
    have step := foldFixture_sums t p hnd hp.1 hp.2
    have hnd' : ((foldFixture t p).map fun r => r.team_name).Nodup := by
      rw [foldFixture_names]
      exact hnd
    have hmem' : ∀ q ∈ rs, q.home_team ∈ (foldFixture t p).map (fun r => r.team_name) ∧
        q.away_team ∈ (foldFixture t p).map fun r => r.team_name := by
      intro q hq
      rw [foldFixture_names]
      exact hmem q (List.mem_cons_of_mem _ hq)
    have tail := ih (foldFixture t p) hnd' hmem'
    have hfold : (p :: rs).foldl foldFixture t = rs.foldl foldFixture (foldFixture t p) := rfl
    have hc1 : (p :: rs).countP (fun q => !(q.home_goals == q.away_goals))
        = rs.countP (fun q => !(q.home_goals == q.away_goals))
          + (if p.home_goals = p.away_goals then 0 else 1) := by
      rw [List.countP_cons]
      by_cases heq : p.home_goals = p.away_goals <;> simp [heq]
    have hc2 : (p :: rs).countP (fun q => q.home_goals == q.away_goals)
        = rs.countP (fun q => q.home_goals == q.away_goals)
          + (if p.home_goals = p.away_goals then 1 else 0) := by
      rw [List.countP_cons]
      by_cases heq : p.home_goals = p.away_goals <;> simp [heq]
    refine ⟨?_, ?_, ?_⟩
    · rw [hfold, tail.1, step.1, hc1, hc2]
      by_cases heq : p.home_goals = p.away_goals <;>
        simp only [heq, if_true, if_false, if_pos, if_neg, not_false_iff] <;> omega
    · rw [hfold, tail.2.1, step.2.1, List.map_cons, List.sum_cons]
      omega
    · rw [hfold, tail.2.2, step.2.2, List.map_cons, List.sum_cons]
      omega

theorem reset_names (t : List LeagueRow) :
    ((t.map resetRow).map fun r => r.team_name) = t.map fun r => r.team_name := by
  rw [List.map_map]
  rfl

theorem reset_sum_zero (g : LeagueRow → Nat) (hg : ∀ r, g (resetRow r) = 0)
    (t : List LeagueRow) : ((t.map resetRow).map g).sum = 0 := by
  apply List.sum_eq_zero
  intro x hx
  rcases List.mem_map.mp hx with ⟨y, hy, rfl⟩
  rcases List.mem_map.mp hy with ⟨r, _, rfl⟩
  exact hg r

/-- Every row of `playedResults` comes from some stored fixture, with the
same home and away team names. -/
theorem playedResults_teams {fixtures : List Fixture} {p : PlayedResult}
    (hp : p ∈ playedResults fixtures) :
    ∃ f ∈ fixtures, p.home_team = f.home_team ∧ p.away_team = f.away_team := by
  unfold playedResults at hp
  rcases List.mem_filterMap.mp hp with ⟨f, hf, hsome⟩
  refine ⟨f, hf, ?_⟩
  rcases hpl : f.is_played with _ | _ <;> rw [hpl] at hsome
  · simp at hsome
  · rcases hhg : f.home_goals with _ | hg <;> rcases hag : f.away_goals with _ | ag <;>
      rw [hhg, hag] at hsome
    · simp at hsome
    · simp at hsome
    · simp at hsome
    · have h := Option.some.inj hsome
      rw [← h]
      exact ⟨rfl, rfl⟩

/-!
## Claim theorems: standings aggregator
-/

/-- C6: over any fixture set whose fixtures reference teams present in
the (duplicate-free) league table, the recomputed table's total points
equal 3 per decisive played match plus 2 per drawn played match, and
total goals for equal total goals against. -/
theorem update_league_table_conservation (table : List LeagueRow)
    (fixtures : List Fixture)
    (hnd : (table.map fun r => r.team_name).Nodup)
    (hteams : ∀ f ∈ fixtures,
      f.home_team ∈ table.map (fun r => r.team_name) ∧
      f.away_team ∈ table.map fun r => r.team_name) :
    sumPoints (update_league_table table fixtures)
      = 3 * ((playedResults fixtures).countP fun p => !(p.home_goals == p.away_goals))
        + 2 * ((playedResults fixtures).countP fun p => p.home_goals == p.away_goals) ∧
    sumGoalsFor (update_league_table table fixtures)
      = sumGoalsAgainst (update_league_table table fixtures) := by
  have hnd0 : ((table.map resetRow).map fun r => r.team_name).Nodup := by
    rw [reset_names]
    exact hnd
  have hmem0 : ∀ p ∈ playedResults fixtures,
      p.home_team ∈ (table.map resetRow).map (fun r => r.team_name) ∧
      p.away_team ∈ (table.map resetRow).map fun r => r.team_name := by
    intro p hp
    rcases playedResults_teams hp with ⟨f, hf, hph, hpa⟩
    rw [reset_names, hph, hpa]
    exact hteams f hf
  have main := foldl_foldFixture_sums (playedResults fixtures)
    (table.map resetRow) hnd0 hmem0
  have hzp : sumPoints (table.map resetRow) = 0 :=
    reset_sum_zero _ (fun _ => rfl) table
  have hzf : sumGoalsFor (table.map resetRow) = 0 :=
    reset_sum_zero _ (fun _ => rfl) table
  have hza : sumGoalsAgainst (table.map resetRow) = 0 :=
    reset_sum_zero _ (fun _ => rfl) table
  unfold update_league_table
  refine ⟨?_, ?_⟩
  · rw [main.1, hzp]
    omega
  · rw [main.2.1, main.2.2, hzf, hza]

/-!
## Row invariant (C9)
-/

theorem applyResult_invariant (r : LeagueRow) (gf ga : Nat)
    (h : rowInvariant r) : rowInvariant (applyResult r gf ga) := by
  rcases h with ⟨h1, h2⟩
  unfold rowInvariant applyResult matchOutcome
  split_ifs <;> simp <;> omega

theorem updateTeamStats_invariant (t : List LeagueRow) (team : String)
    (gf ga : Nat) (b : Bool) (h : ∀ r ∈ t, rowInvariant r) :
    ∀ r ∈ updateTeamStats t team gf ga b, rowInvariant r := by
  intro r hr
  unfold updateTeamStats at hr
  rcases List.mem_map.mp hr with ⟨x, hx, rfl⟩
  by_cases hxt : x.team_name = team
  · rw [if_pos hxt]
    exact applyResult_invariant x gf ga (h x hx)
  · rw [if_neg hxt]
    exact h x hx

theorem foldFixture_invariant (t : List LeagueRow) (p : PlayedResult)
    (h : ∀ r ∈ t, rowInvariant r) : ∀ r ∈ foldFixture t p, rowInvariant r := by
  unfold foldFixture
  exact updateTeamStats_invariant _ _ _ _ _ (updateTeamStats_invariant _ _ _ _ _ h)

theorem foldl_foldFixture_invariant :
    ∀ (rs : List PlayedResult) (t : List LeagueRow),
      (∀ r ∈ t, rowInvariant r) → ∀ r ∈ rs.foldl foldFixture t, rowInvariant r := by
  intro rs
  induction rs with
  | nil => intro t h; exact h
  | cons p rs ih =>
    intro t h
    exact ih (foldFixture t p) (foldFixture_invariant t p h)

/-- C9: after every standings recompute, every row of the league table
satisfies played = won + drawn + lost and points = 3·won + drawn,
whatever fixtures were folded in. -/
theorem update_league_table_row_invariant (table : List LeagueRow)
    (fixtures : List Fixture) :
    ∀ r ∈ update_league_table table fixtures,
      r.played = r.won + r.drawn + r.lost ∧ r.points = 3 * r.won + r.drawn := by
  apply foldl_foldFixture_invariant
  intro r hr
  rcases List.mem_map.mp hr with ⟨x, _, rfl⟩
  exact ⟨rfl, rfl⟩

/-- C3: for every call to `simulate_match`, at every fidelity level
including the fallback, the returned `result` field equals "H" iff the
home goals exceed the away goals, "A" iff the away goals exceed the home
goals, and "D" otherwise; the derivation is the single function
`resultFromGoals` of the two final goal counts, identical for every
level. -/
theorem simulate_match_result_consistent (home_team away_team : String)
    (home_stats away_stats : Stats) (simulation_level : String)
    (gameweek : Nat) (d : MatchDraws) :
    let r := simulate_match home_team away_team home_stats away_stats
      simulation_level gameweek d
    (r.result = "H" ↔ r.home_goals > r.away_goals) ∧
    (r.result = "A" ↔ r.away_goals > r.home_goals) ∧
    (r.result = "D" ↔ ¬ r.home_goals > r.away_goals ∧ ¬ r.away_goals > r.home_goals) ∧
    r.result = resultFromGoals r.home_goals r.away_goals := by
  intro r
  exact ⟨(resultFromGoals_spec _ _).1, (resultFromGoals_spec _ _).2.1,
    (resultFromGoals_spec _ _).2.2, rfl⟩

/-- C4: for every simulated match, at every one of the four fidelity
levels (and the fallback), for every input stats and every random draw,
the home and away goal counts lie in the inclusive range 0..7. -/
theorem simulate_match_goals_bounded (home_team away_team : String)
    (home_stats away_stats : Stats) (simulation_level : String)
    (gameweek : Nat) (d : MatchDraws) :
    let r := simulate_match home_team away_team home_stats away_stats
      simulation_level gameweek d
    (0 ≤ r.home_goals ∧ r.home_goals ≤ max_goals) ∧
    (0 ≤ r.away_goals ∧ r.away_goals ≤ max_goals) := by
  intro r
  have h := simulate_goals_le home_stats away_stats simulation_level gameweek d
  exact ⟨⟨Nat.zero_le _, h.1⟩, ⟨Nat.zero_le _, h.2⟩⟩

/-- C5: for every pair of input stats (hence every rating difference,
including the bucket boundaries −20, −10, 0, 10, 20),
`get_result_probability` returns three non-negative values summing to
exactly 1. -/
theorem get_result_probability_sums_to_one (home_stats away_stats : Stats) :
    0 ≤ (get_result_probability home_stats away_stats).home_win ∧
    0 ≤ (get_result_probability home_stats away_stats).draw ∧
    0 ≤ (get_result_probability home_stats away_stats).away_win ∧
    (get_result_probability home_stats away_stats).home_win +
      (get_result_probability home_stats away_stats).draw +
      (get_result_probability home_stats away_stats).away_win = 1 := by
  show 0 ≤ (probabilityBuckets _).home_win ∧ 0 ≤ (probabilityBuckets _).draw ∧
    0 ≤ (probabilityBuckets _).away_win ∧ (probabilityBuckets _).home_win +
      (probabilityBuckets _).draw + (probabilityBuckets _).away_win = 1
  unfold probabilityBuckets
  split_ifs <;> norm_num

/-- C10: `get_result_probability` is a pure function of the two
`overall_rating` entries alone (absent entries defaulting to 50): it
takes no random input, and any two calls agreeing on those two entries
return identical probability triples whatever the other stats fields
are. -/
theorem get_result_probability_deterministic (hs1 hs2 as1 as2 : Stats)
    (hh : hs1.overall_rating = hs2.overall_rating)
    (ha : as1.overall_rating = as2.overall_rating) :
    get_result_probability hs1 as1 = get_result_probability hs2 as2 := by
  unfold get_result_probability
  rw [hh, ha]

/-- Witness for C10: two stats pairs agreeing on `overall_rating` but
differing everywhere else yield the same triple. -/
theorem get_result_probability_deterministic_witness :
    ({ overall_rating := some 60, attack_rating := some 90 } : Stats).overall_rating
      = ({ overall_rating := some 60, attack_rating := some 10 } : Stats).overall_rating ∧
    ({ recent_form := some 4 } : Stats).overall_rating
      = ({ defense_rating := some 2 } : Stats).overall_rating ∧
    get_result_probability { overall_rating := some 60, attack_rating := some 90 }
        { recent_form := some 4 }
      = get_result_probability { overall_rating := some 60, attack_rating := some 10 }
        { defense_rating := some 2 } :=
  ⟨rfl, rfl, get_result_probability_deterministic _ _ _ _ rfl rfl⟩

/-- C8 counterexample: for the motivation draw 2 the home side gains 2
while the away side only loses 1 (Python floor division by 2), so the
sum of the two strengths is not preserved: the claimed zero-sum symmetry
fails on the code. -/
theorem motivation_not_zero_sum :
    (motivationStep 50 50 2).1 - 50 = 2 ∧
    50 - (motivationStep 50 50 2).2 = 1 ∧
    (motivationStep 50 50 2).1 + (motivationStep 50 50 2).2 ≠ 50 + 50 := by
  decide

/-- C8 amended: the motivation perturbation adds the full draw `m` to the
home strength and subtracts `m` floor-divided by 2 from the away
strength; it changes the sum of the two strengths by `m - m.fdiv 2`,
which is zero exactly for the draws 0 and −1, so the perturbation is not
zero-sum in general. -/
theorem motivationStep_sum (home_strength away_strength motivation : Int) :
    (motivationStep home_strength away_strength motivation).1
        + (motivationStep home_strength away_strength motivation).2
      = home_strength + away_strength + (motivation - Int.fdiv motivation 2) ∧
    ((motivationStep home_strength away_strength motivation).1
        + (motivationStep home_strength away_strength motivation).2
      = home_strength + away_strength ↔ motivation = 0 ∨ motivation = -1) := by
  unfold motivationStep
  rw [Int.fdiv_eq_ediv motivation (by norm_num)]
  constructor
  · ring
  · constructor
    · intro h
      omega
    · intro h
      omega


/-!
## Claim theorems: season progression and result recording
-/

/-- C1 counterexample: `advance_gameweek` takes only the game state,
consults no fixtures, and silently increments the gameweek even while
the current gameweek has an unplayed fixture — it cannot fail, contrary
to the claimed guard error. -/
theorem advance_gameweek_unguarded :
    (∃ f ∈ get_gameweek_fixtures fixturesC1 stateC1.current_gameweek,
      f.is_played = false) ∧
    advance_gameweek stateC1 = ⟨2, "2024-25", "Sheffield United"⟩ := by
  constructor
  · decide
  · rfl

/-- C1 amended: the guard lives in the UI flow `show_fixtures_advance`,
not in `advance_gameweek` itself.  While any current-gameweek fixture is
unplayed, the flow leaves the state and table unchanged and shows an
explicit message carrying the (non-zero) number of remaining matches;
when every current-gameweek fixture is played, it increments the
gameweek by 1 and recomputes the standings before redisplay. -/
theorem show_fixtures_advance_guard (s : GameState) (fixtures : List Fixture)
    (table : List LeagueRow) :
    (unplayedFixtures fixtures s.current_gameweek ≠ [] →
      show_fixtures_advance s fixtures table
        = (s, table, some (unplayedFixtures fixtures s.current_gameweek).length) ∧
      (unplayedFixtures fixtures s.current_gameweek).length ≠ 0) ∧
    (unplayedFixtures fixtures s.current_gameweek = [] →
      show_fixtures_advance s fixtures table
        = (advance_gameweek s, update_league_table table fixtures, none) ∧
      (advance_gameweek s).current_gameweek = s.current_gameweek + 1) := by
  have hiff : ((get_gameweek_fixtures fixtures s.current_gameweek).all
      fun f => f.is_played) = true ↔
      unplayedFixtures fixtures s.current_gameweek = [] := by
    rw [List.all_eq_true]
    unfold unplayedFixtures
    constructor
    · intro h
      apply List.filter_eq_nil_iff.mpr
      intro f hf
      simp [h f hf]
    · intro h f hf
      have := List.filter_eq_nil_iff.mp h f hf
      simpa using this
  constructor
  · intro hne
    have hall : ¬ ((get_gameweek_fixtures fixtures s.current_gameweek).all
        fun f => f.is_played) = true := fun hb => hne (hiff.mp hb)
    constructor
    · unfold show_fixtures_advance
      rw [if_neg hall]
    · intro hlen
      exact hne (List.length_eq_zero.mp hlen)
  · intro hempty
    have hall := hiff.mpr hempty
    constructor
    · unfold show_fixtures_advance
      rw [if_pos hall]
    · rfl

/-- Witness for the amended C1: with the unplayed gameweek-1 fixture the
flow refuses to advance and reports 1 remaining match; with the played
store it advances to gameweek 2 and recomputes the table. -/
theorem show_fixtures_advance_guard_witness :
    (show_fixtures_advance stateC1 fixturesC1 tableC1
        = (stateC1, tableC1, some (unplayedFixtures fixturesC1 stateC1.current_gameweek).length) ∧
      (unplayedFixtures fixturesC1 stateC1.current_gameweek).length ≠ 0) ∧
    (show_fixtures_advance stateC1 fixturesC1done tableC1
        = (advance_gameweek stateC1, update_league_table tableC1 fixturesC1done, none) ∧
      (advance_gameweek stateC1).current_gameweek = stateC1.current_gameweek + 1) :=
  ⟨(show_fixtures_advance_guard stateC1 fixturesC1 tableC1).1 (by decide),
   (show_fixtures_advance_guard stateC1 fixturesC1done tableC1).2 (by decide)⟩

/-- C2: evaluation at the failing input.  After folding the single
played fixture Arsenal 2-0 Chelsea into a fresh table, Arsenal's row
reads goals_for = 2, goals_against = 0 but goal_difference = 0: the SQL
SET clause computed it from the pre-update (zero) totals, so the stored
goal_difference is NOT the running goals_for minus goals_against. -/
theorem goal_difference_stale :
    (update_league_table tableC2 fixturesC2).map
        (fun r => (r.team_name, r.goals_for, r.goals_against, r.goal_difference))
      = [("Arsenal", 2, 0, 0), ("Chelsea", 0, 2, 0)] ∧
    ∃ r ∈ update_league_table tableC2 fixturesC2,
      r.goal_difference ≠ (r.goals_for : Int) - (r.goals_against : Int) := by
  constructor
  · rfl
  · decide

/-- C7 counterexample: recording a result for fixture id 5 against a
store that has no such id raises no error — the call returns success
with the store unchanged, contrary to the claimed caller-visible
error. -/
theorem update_fixture_result_missing_id_silent :
    (∀ f ∈ fixturesC7, f.id ≠ 5) ∧
    update_fixture_result fixturesC7 5 2 1 = Except.ok fixturesC7 := by
  constructor
  · decide
  · rfl

/-- If no stored fixture has the requested id, the UPDATE touches no
row. -/
theorem map_ite_id_fixture (fixture_id home_goals away_goals : Nat) :
    ∀ l : List Fixture, (∀ f ∈ l, f.id ≠ fixture_id) →
      (l.map fun f => if f.id = fixture_id then
          { f with home_goals := some home_goals, away_goals := some away_goals,
                   is_played := true }
        else f) = l := by
  intro l
  induction l with
  | nil => intro _; rfl
  | cons f fs ih =>
    intro h
    rw [List.map_cons, if_neg (h f (List.mem_cons_self f fs)),
      ih fun g hg => h g (List.mem_cons_of_mem f hg)]

/-- C7 amended: recording a result for a fixture id that does not exist
is a silent no-op — the call succeeds and leaves the fixture store
unchanged. -/
theorem update_fixture_result_noop (fixtures : List Fixture)
    (fixture_id home_goals away_goals : Nat)
    (h : ∀ f ∈ fixtures, f.id ≠ fixture_id) :
    update_fixture_result fixtures fixture_id home_goals away_goals
      = Except.ok fixtures := by
  unfold update_fixture_result
  rw [map_ite_id_fixture fixture_id home_goals away_goals fixtures h]

/-- Witness for the amended C7: a two-fixture store with ids 1 and 2 is
returned unchanged, with success, when a result is recorded for id 99. -/
theorem update_fixture_result_noop_witness :
    (∀ f ∈ fixturesC7b, f.id ≠ 99) ∧
    update_fixture_result fixturesC7b 99 3 0 = Except.ok fixturesC7b :=
  ⟨by decide, update_fixture_result_noop fixturesC7b 99 3 0 (by decide)⟩

/-- Witness for C6: a table of Arsenal and Chelsea with one decisive and
one drawn played match (one fixture still unplayed) satisfies both
conservation identities. -/
theorem update_league_table_conservation_witness :
    ((tableC6.map fun r => r.team_name).Nodup ∧
      (∀ f ∈ fixturesC6, f.home_team ∈ tableC6.map (fun r => r.team_name) ∧
        f.away_team ∈ tableC6.map fun r => r.team_name)) ∧
    (sumPoints (update_league_table tableC6 fixturesC6)
        = 3 * ((playedResults fixturesC6).countP fun p => !(p.home_goals == p.away_goals))
          + 2 * ((playedResults fixturesC6).countP fun p => p.home_goals == p.away_goals) ∧
      sumGoalsFor (update_league_table tableC6 fixturesC6)
        = sumGoalsAgainst (update_league_table tableC6 fixturesC6)) :=
  ⟨⟨by decide, by decide⟩,
   update_league_table_conservation tableC6 fixturesC6 (by decide) (by decide)⟩

/-- Witness for C9: the Arsenal row after folding Arsenal 2-0 Chelsea
into a fresh table satisfies the bookkeeping invariant. -/
theorem update_league_table_row_invariant_witness :
    ((⟨"Arsenal", 1, 1, 0, 0, 2, 0, 0, 3, ""⟩ : LeagueRow)
        ∈ update_league_table tableC9 fixturesC9) ∧
    ((1 : Nat) = 1 + 0 + 0 ∧ (3 : Nat) = 3 * 1 + 0) :=
  ⟨by decide,
   update_league_table_row_invariant tableC9 fixturesC9
     ⟨"Arsenal", 1, 1, 0, 0, 2, 0, 0, 3, ""⟩ (by decide)⟩
